import Mathlib

/-
Verification of the go-cli-eth NFT ownership service.

The Go repository is a thin orchestration layer: an NFT service
(services/nft_service.go) fetches the current owner of an ERC-721 token
from a blockchain client, reconciles it with a GORM-backed Postgres table
of NFT records (models/nft.go), and exposes the four operations over HTTP
handlers (handlers/nft_handler.go) with gin request binding
(dto/requests.go).

Shallow embedding choices:
  - timestamps are naturals; `Env.now` models the value returned by
    time.Now() during one service call;
  - the GORM database is a list of NFT records; `First` with the
    `token_id = ?` clause is a point lookup, `Create` appends,
    `Save` replaces the row with the same primary key, `Find` returns
    every row;
  - external outcomes (the ethereum client call and database faults other
    than gorm.ErrRecordNotFound) are injected through `Env`;
  - Go errors are the exact formatted strings the source builds with
    fmt.Errorf, since the HTTP handlers classify failures by comparing
    those strings;
  - each service call also returns the trace of store operations it
    performed, so that read/write effects are observable.
-/

namespace GoCliEth

/-- models.NFT (models/nft.go): the sole persisted entity, keyed by
TokenID, with Owner, CreatedAt and UpdatedAt. -/
structure NFT where
  tokenID : Nat
  owner : String
  createdAt : Nat
  updatedAt : Nat
deriving Repr, DecidableEq

/-- The nfts table: the GORM database holding NFT rows. -/
abbrev Store := List NFT

/-- db.Where("token_id = ?", tokenID).First(&nft): point lookup by
primary key. -/
def dbFirstByTokenID (db : Store) (t : Nat) : Option NFT :=
  db.find? (fun n => n.tokenID == t)

/-- db.Create(&nft): inserts a new row. -/
def dbCreate (db : Store) (n : NFT) : Store :=
  db ++ [n]

/-- db.Save(&nft): updates the row with the same primary key in place. -/
def dbSave (db : Store) (n : NFT) : Store :=
  db.map (fun m => if m.tokenID == n.tokenID then n else m)

/-- A store operation performed by a service call, recorded in the
effect trace: a `First` lookup, a `Create` insert, a `Save` update, or a
`Find` full scan. -/
inductive StoreOp where
  | first (tokenID : Nat)
  | create (n : NFT)
  | save (n : NFT)
  | findAll
deriving Repr, DecidableEq

/-- Whether a store operation mutates the store. -/
def StoreOp.isWrite : StoreOp → Bool
  | .create _ => true
  | .save _ => true
  | _ => false

/-- Outcomes of the external collaborators during one service call:
`chain` is the result of ethClient.GetOwnerOf (the owner address, or the
error message of a failed call); the three fault fields, when set, make
the corresponding database call fail with that message (faults other
than gorm.ErrRecordNotFound); `now` is the value of time.Now(). -/
structure Env where
  chain : Except String String
  firstFault : Option String
  createFault : Option String
  saveFault : Option String
  findAllFault : Option String
  now : Nat
deriving Repr

/-- The result of one service call: the Go return value (record or error
string), the database after the call, and the trace of store operations
performed. -/
abbrev SvcResult (α : Type) := Except String α × Store × List StoreOp

/-- NFTService.GetAndStoreOwner (services/nft_service.go lines 28-68):
fetch the owner from the blockchain, return the existing record if one
is stored for the token id, otherwise create and store a new record with
CreatedAt and UpdatedAt set to time.Now(). -/
def GetAndStoreOwner (env : Env) (contractAddress : String) (tokenID : Nat)
    (db : Store) : SvcResult NFT :=
  match env.chain with
  | .error e => (.error ("failed to get owner from blockchain: " ++ e), db, [])
  | .ok owner =>
    match env.firstFault with
    | some e => (.error ("failed to check existing NFT: " ++ e), db, [.first tokenID])
    | none =>
      match dbFirstByTokenID db tokenID with
      | some existingNFT => (.ok existingNFT, db, [.first tokenID])
      | none =>
        let nft : NFT :=
          { tokenID := tokenID, owner := owner,
            createdAt := env.now, updatedAt := env.now }
        match env.createFault with
        | some e =>
          (.error ("failed to save NFT to database: " ++ e), db,
            [.first tokenID, .create nft])
        | none => (.ok nft, dbCreate db nft, [.first tokenID, .create nft])

/-- NFTService.UpdateOwner (services/nft_service.go lines 71-103): fetch
the owner from the blockchain, look up the existing record (failing with
the "not found in database" error if absent), set Owner to the fetched
value and UpdatedAt to time.Now(), and save. -/
def UpdateOwner (env : Env) (contractAddress : String) (tokenID : Nat)
    (db : Store) : SvcResult NFT :=
  match env.chain with
  | .error e => (.error ("failed to get owner from blockchain: " ++ e), db, [])
  | .ok owner =>
    match env.firstFault with
    | some e => (.error ("failed to find NFT: " ++ e), db, [.first tokenID])
    | none =>
      match dbFirstByTokenID db tokenID with
      | none =>
        (.error ("NFT with token ID " ++ toString tokenID ++ " not found in database"),
          db, [.first tokenID])
      | some nft =>
        let nft' : NFT := { nft with owner := owner, updatedAt := env.now }
        match env.saveFault with
        | some e =>
          (.error ("failed to update NFT: " ++ e), db, [.first tokenID, .save nft'])
        | none => (.ok nft', dbSave db nft', [.first tokenID, .save nft'])

/-- NFTService.GetNFTByTokenID (services/nft_service.go lines 106-119):
point lookup, failing with the "not found" error when absent. -/
def GetNFTByTokenID (env : Env) (tokenID : Nat) (db : Store) : SvcResult NFT :=
  match env.firstFault with
  | some e => (.error ("failed to get NFT: " ++ e), db, [.first tokenID])
  | none =>
    match dbFirstByTokenID db tokenID with
    | none =>
      (.error ("NFT with token ID " ++ toString tokenID ++ " not found"),
        db, [.first tokenID])
    | some nft => (.ok nft, db, [.first tokenID])

/-- NFTService.GetAllNFTs (services/nft_service.go lines 122-132): full
scan; db.Find returns every row and no error when the table is empty. -/
def GetAllNFTs (env : Env) (db : Store) : SvcResult (List NFT) :=
  match env.findAllFault with
  | some e => (.error ("failed to get NFTs: " ++ e), db, [.findAll])
  | none => (.ok db, db, [.findAll])

/-- A JSON request body for the POST and PUT owner endpoints
(dto.GetOwnerRequest / dto.UpdateOwnerRequest, dto/requests.go): each
field is `none` when the key is omitted from the JSON object. Both Go
structs have the same two fields with the same binding tags. -/
structure OwnerRequestBody where
  contractAddress : Option String
  tokenID : Option Nat
deriving Repr

/-- c.ShouldBindJSON for GetOwnerRequest / UpdateOwnerRequest: JSON
unmarshalling leaves an omitted field at its Go zero value ("" for
string, 0 for uint), and the validator's `binding:"required"` tag then
fails on a zero value, so binding succeeds exactly when both fields are
present and non-zero. -/
def bindOwnerRequest (b : OwnerRequestBody) : Option (String × Nat) :=
  let ca := b.contractAddress.getD ""
  let t := b.tokenID.getD 0
  if ca == "" || t == 0 then none else some (ca, t)

/-- strconv.ParseUint(s, 10, 32): succeeds on a non-empty all-digit
string (no sign, no leading-zero restriction) whose value fits in 32
bits. -/
def parseUintBase10Bits32 (s : String) : Option Nat :=
  if s.data.isEmpty then none
  else if s.data.all (fun c => c.isDigit) then
    let n := s.data.foldl (fun acc c => acc * 10 + (c.toNat - 48)) 0
    if n < 2 ^ 32 then some n else none
  else none

/-- strconv.Itoa(int(t)) for a Go uint t on a 64-bit target: converting
to int reinterprets values at or above 2^63 as negative. -/
def goItoaIntOfUint (t : Nat) : String :=
  if t < 2 ^ 63 then toString t else "-" ++ toString (2 ^ 64 - t)

/-- The HTTP status an endpoint responds with, together with the
database after the request and the trace of store operations the
underlying service call performed. -/
abbrev HandlerResult := Nat × Store × List StoreOp

/-- NFTHandler.GetAndStoreOwner (handlers/nft_handler.go lines 37-70):
400 on binding failure, 500 on any service error, 200 on success. -/
def handleGetAndStoreOwner (env : Env) (b : OwnerRequestBody) (db : Store) :
    HandlerResult :=
  match bindOwnerRequest b with
  | none => (400, db, [])
  | some (ca, t) =>
    match GetAndStoreOwner env ca t db with
    | (.error _, db', tr) => (500, db', tr)
    | (.ok _, db', tr) => (200, db', tr)

/-- NFTHandler.UpdateOwner (handlers/nft_handler.go lines 84-122): 400
on binding failure; on a service error, 404 when the error string equals
"NFT with token ID " + strconv.Itoa(int(req.TokenID)) + " not found in
database", 500 otherwise; 200 on success. -/
def handleUpdateOwner (env : Env) (b : OwnerRequestBody) (db : Store) :
    HandlerResult :=
  match bindOwnerRequest b with
  | none => (400, db, [])
  | some (ca, t) =>
    match UpdateOwner env ca t db with
    | (.error msg, db', tr) =>
      (if msg == "NFT with token ID " ++ goItoaIntOfUint t ++ " not found in database"
        then 404 else 500, db', tr)
    | (.ok _, db', tr) => (200, db', tr)

/-- NFTHandler.GetNFTByTokenID (handlers/nft_handler.go lines 135-174):
400 when the token_id path parameter does not parse; on a service error,
404 when the error string equals "NFT with token ID " + tokenIDStr +
" not found" (tokenIDStr being the raw path string), 500 otherwise; 200
on success. -/
def handleGetNFTByTokenID (env : Env) (tokenIDStr : String) (db : Store) : Nat :=
  match parseUintBase10Bits32 tokenIDStr with
  | none => 400
  | some t =>
    match GetNFTByTokenID env t db with
    | (.error msg, _, _) =>
      if msg == "NFT with token ID " ++ tokenIDStr ++ " not found" then 404 else 500
    | (.ok _, _, _) => 200

/-- NFTHandler.GetAllNFTs (handlers/nft_handler.go lines 184-211): 500
on a service error, 200 with the list otherwise. -/
def handleGetAllNFTs (env : Env) (db : Store) : Nat :=
  match GetAllNFTs env db with
  | (.error _, _, _) => 500
  | (.ok _, _, _) => 200

/-- The record invariant of the data model: created_at ≤ updated_at for
every stored record. -/
def StoreInv (db : Store) : Prop :=
  ∀ n ∈ db, n.createdAt ≤ n.updatedAt

instance : DecidablePred StoreInv := fun db =>
  inferInstanceAs (Decidable (∀ n ∈ db, n.createdAt ≤ n.updatedAt))

/-- C1: when a record for the token id is already stored,
GetAndStoreOwner returns the stored record unchanged, leaves the store
unchanged, and performs only the lookup (no write): the freshly fetched
on-chain owner A is discarded even when it differs from the stored
owner. -/
theorem getAndStoreOwner_existing_unchanged
    (env : Env) (ca : String) (t : Nat) (db : Store) (A : String) (nft : NFT)
    (hchain : env.chain = .ok A)
    (hff : env.firstFault = none)
    (hex : dbFirstByTokenID db t = some nft) :
    GetAndStoreOwner env ca t db = (.ok nft, db, [.first t]) := by
  simp only [GetAndStoreOwner, hchain, hff, hex]

/-- Witness for C1 at a concrete input: the chain reports 0xAAAA but the
stored owner 0xBBBB is returned unchanged with no write performed. -/
theorem getAndStoreOwner_existing_unchanged_witness :
    GetAndStoreOwner ⟨.ok "0xAAAA", none, none, none, none, 10⟩ "0xC" 1
        [⟨1, "0xBBBB", 2, 3⟩]
      = (.ok ⟨1, "0xBBBB", 2, 3⟩, [⟨1, "0xBBBB", 2, 3⟩], [.first 1]) :=
  getAndStoreOwner_existing_unchanged _ "0xC" 1 _ "0xAAAA" _ rfl rfl rfl

/-- C2: when no record for the token id is stored, UpdateOwner fails
with exactly the "NFT with token ID t not found in database" condition
(the message other failures never produce), leaves the store unchanged,
and performs only the lookup: no record is created. -/
theorem updateOwner_absent_notFound
    (env : Env) (ca : String) (t : Nat) (db : Store) (A : String)
    (hchain : env.chain = .ok A)
    (hff : env.firstFault = none)
    (habs : dbFirstByTokenID db t = none) :
    UpdateOwner env ca t db =
      (.error ("NFT with token ID " ++ toString t ++ " not found in database"),
        db, [.first t]) := by
  simp only [UpdateOwner, hchain, hff, habs]

/-- Witness for C2 at a concrete input: token 5 absent from a one-record
store. -/
theorem updateOwner_absent_notFound_witness :
    UpdateOwner ⟨.ok "0xAAAA", none, none, none, none, 10⟩ "0xC" 5
        [⟨1, "0xBBBB", 2, 3⟩]
      = (.error "NFT with token ID 5 not found in database",
          [⟨1, "0xBBBB", 2, 3⟩], [.first 5]) :=
  updateOwner_absent_notFound _ "0xC" 5 _ "0xAAAA" rfl rfl rfl

/-- C3: on an existing record, a successful UpdateOwner returns and
stores the record with owner set to the freshly fetched chain value A
(unconditionally: A is arbitrary, possibly equal to the stored owner),
updated_at set to now (which is ≥ the previous updated_at under clock
monotonicity) and created_at exactly unchanged. -/
theorem updateOwner_refreshes
    (env : Env) (ca : String) (t : Nat) (db : Store) (A : String) (nft : NFT)
    (hchain : env.chain = .ok A)
    (hff : env.firstFault = none)
    (hsf : env.saveFault = none)
    (hex : dbFirstByTokenID db t = some nft)
    (hmono : nft.updatedAt ≤ env.now) :
    UpdateOwner env ca t db =
      (.ok { nft with owner := A, updatedAt := env.now },
        dbSave db { nft with owner := A, updatedAt := env.now },
        [.first t, .save { nft with owner := A, updatedAt := env.now }]) ∧
    ({ nft with owner := A, updatedAt := env.now }).createdAt = nft.createdAt ∧
    nft.updatedAt ≤ ({ nft with owner := A, updatedAt := env.now }).updatedAt := by
  refine ⟨?_, rfl, hmono⟩
  simp only [UpdateOwner, hchain, hff, hex, hsf]

/-- Witness for C3 at a concrete input: owner refreshed from 0xBBBB to
0xAAAA, updated_at advanced from 3 to 10, created_at kept at 2. -/
theorem updateOwner_refreshes_witness :
    UpdateOwner ⟨.ok "0xAAAA", none, none, none, none, 10⟩ "0xC" 1
        [⟨1, "0xBBBB", 2, 3⟩]
      = (.ok ⟨1, "0xAAAA", 2, 10⟩,
          dbSave [⟨1, "0xBBBB", 2, 3⟩] ⟨1, "0xAAAA", 2, 10⟩,
          [.first 1, .save ⟨1, "0xAAAA", 2, 10⟩]) ∧
    (NFT.createdAt ⟨1, "0xAAAA", 2, 10⟩ = 2) ∧
    3 ≤ NFT.updatedAt ⟨1, "0xAAAA", 2, 10⟩ :=
  updateOwner_refreshes _ "0xC" 1 _ "0xAAAA" ⟨1, "0xBBBB", 2, 3⟩
    rfl rfl rfl rfl (by decide)

/-- C4: when the chain client call fails, both GetAndStoreOwner and
UpdateOwner return the propagated failure with an empty store-operation
trace (no store read and no store write) and the store unchanged. -/
theorem chainFailure_noStoreAccess
    (env : Env) (ca : String) (t : Nat) (db : Store) (e : String)
    (hchain : env.chain = .error e) :
    GetAndStoreOwner env ca t db =
      (.error ("failed to get owner from blockchain: " ++ e), db, []) ∧
    UpdateOwner env ca t db =
      (.error ("failed to get owner from blockchain: " ++ e), db, []) := by
  constructor
  · simp only [GetAndStoreOwner, hchain]
  · simp only [UpdateOwner, hchain]

/-- Witness for C4 at a concrete input: a simulated timeout. -/
theorem chainFailure_noStoreAccess_witness :
    GetAndStoreOwner ⟨.error "timeout", none, none, none, none, 10⟩ "0xC" 1
        [⟨1, "0xBBBB", 2, 3⟩]
      = (.error "failed to get owner from blockchain: timeout",
          [⟨1, "0xBBBB", 2, 3⟩], []) ∧
    UpdateOwner ⟨.error "timeout", none, none, none, none, 10⟩ "0xC" 1
        [⟨1, "0xBBBB", 2, 3⟩]
      = (.error "failed to get owner from blockchain: timeout",
          [⟨1, "0xBBBB", 2, 3⟩], []) :=
  chainFailure_noStoreAccess _ "0xC" 1 _ "timeout" rfl

/-- Helper: a lookup that misses a whole store finds a freshly appended
matching record. -/
theorem dbFirstByTokenID_append_self (db : Store) (t : Nat) (n : NFT)
    (habs : dbFirstByTokenID db t = none) (hn : n.tokenID = t) :
    dbFirstByTokenID (db ++ [n]) t = some n := by
  unfold dbFirstByTokenID at habs ⊢
  rw [List.find?_append, habs]
  simp [List.find?, hn]

/-- C5: seeding is idempotent: starting from a store with no record for
the token id, two successive GetAndStoreOwner calls that both see the
chain report owner A leave the store of the first call unchanged, return
the same record, leave exactly one record for that token id, and perform
exactly one store write in total. -/
theorem getAndStoreOwner_idempotent_seed
    (env1 env2 : Env) (ca1 ca2 : String) (t : Nat) (db : Store) (A : String)
    (h1 : env1.chain = .ok A) (h2 : env2.chain = .ok A)
    (hf1 : env1.firstFault = none) (hf2 : env2.firstFault = none)
    (hc1 : env1.createFault = none) (hc2 : env2.createFault = none)
    (habs : dbFirstByTokenID db t = none) :
    (GetAndStoreOwner env2 ca2 t (GetAndStoreOwner env1 ca1 t db).2.1).2.1
      = (GetAndStoreOwner env1 ca1 t db).2.1 ∧
    (GetAndStoreOwner env2 ca2 t (GetAndStoreOwner env1 ca1 t db).2.1).1
      = (GetAndStoreOwner env1 ca1 t db).1 ∧
    ((GetAndStoreOwner env2 ca2 t (GetAndStoreOwner env1 ca1 t db).2.1).2.1.countP
        (fun n => n.tokenID == t)) = 1 ∧
    (((GetAndStoreOwner env1 ca1 t db).2.2 ++
        (GetAndStoreOwner env2 ca2 t (GetAndStoreOwner env1 ca1 t db).2.1).2.2).countP
        StoreOp.isWrite) = 1 := by
  have hcount0 : db.countP (fun n => n.tokenID == t) = 0 := by
    refine List.countP_eq_zero.mpr ?_
    intro a ha
    exact List.find?_eq_none.mp habs a ha
  have h1eq : GetAndStoreOwner env1 ca1 t db =
      (.ok ⟨t, A, env1.now, env1.now⟩, db ++ [⟨t, A, env1.now, env1.now⟩],
        [.first t, .create ⟨t, A, env1.now, env1.now⟩]) := by
    simp only [GetAndStoreOwner, h1, hf1, habs, hc1, dbCreate]
  have hfind2 : dbFirstByTokenID (db ++ [⟨t, A, env1.now, env1.now⟩]) t
      = some ⟨t, A, env1.now, env1.now⟩ :=
    dbFirstByTokenID_append_self db t _ habs rfl
  have h2eq : GetAndStoreOwner env2 ca2 t (db ++ [⟨t, A, env1.now, env1.now⟩]) =
      (.ok ⟨t, A, env1.now, env1.now⟩, db ++ [⟨t, A, env1.now, env1.now⟩],
        [.first t]) := by
    simp only [GetAndStoreOwner, h2, hf2, hfind2]
  refine ⟨?_, ?_, ?_, ?_⟩
  · rw [h1eq]
    exact congrArg (fun r => r.2.1) h2eq
  · rw [h1eq]
    exact congrArg (fun r => r.1) h2eq
  · rw [h1eq]
    rw [show (GetAndStoreOwner env2 ca2 t (db ++ [⟨t, A, env1.now, env1.now⟩])).2.1
        = db ++ [⟨t, A, env1.now, env1.now⟩] from congrArg (fun r => r.2.1) h2eq]
    simp [List.countP_append, hcount0, List.countP_cons]
  · rw [h1eq]
    rw [show (GetAndStoreOwner env2 ca2 t (db ++ [⟨t, A, env1.now, env1.now⟩])).2.2
        = [.first t] from congrArg (fun r => r.2.2) h2eq]
    simp [List.countP_cons, StoreOp.isWrite]

/-- Witness for C5 at a concrete input: two seeding calls for token 7 on
an initially empty store. -/
theorem getAndStoreOwner_idempotent_seed_witness :
    (GetAndStoreOwner ⟨.ok "0xAAAA", none, none, none, none, 11⟩ "0xC" 7
        (GetAndStoreOwner ⟨.ok "0xAAAA", none, none, none, none, 10⟩ "0xC" 7 []).2.1).2.1
      = (GetAndStoreOwner ⟨.ok "0xAAAA", none, none, none, none, 10⟩ "0xC" 7 []).2.1 ∧
    (GetAndStoreOwner ⟨.ok "0xAAAA", none, none, none, none, 11⟩ "0xC" 7
        (GetAndStoreOwner ⟨.ok "0xAAAA", none, none, none, none, 10⟩ "0xC" 7 []).2.1).1
      = (GetAndStoreOwner ⟨.ok "0xAAAA", none, none, none, none, 10⟩ "0xC" 7 []).1 ∧
    ((GetAndStoreOwner ⟨.ok "0xAAAA", none, none, none, none, 11⟩ "0xC" 7
        (GetAndStoreOwner ⟨.ok "0xAAAA", none, none, none, none, 10⟩ "0xC" 7 []).2.1).2.1.countP
        (fun n => n.tokenID == 7)) = 1 ∧
    (((GetAndStoreOwner ⟨.ok "0xAAAA", none, none, none, none, 10⟩ "0xC" 7 []).2.2 ++
        (GetAndStoreOwner ⟨.ok "0xAAAA", none, none, none, none, 11⟩ "0xC" 7
          (GetAndStoreOwner ⟨.ok "0xAAAA", none, none, none, none, 10⟩ "0xC" 7 []).2.1).2.2).countP
        StoreOp.isWrite) = 1 :=
  getAndStoreOwner_idempotent_seed _ _ "0xC" "0xC" 7 [] "0xAAAA"
    rfl rfl rfl rfl rfl rfl rfl

/-- C7: the invariant created_at ≤ updated_at on every stored record is
preserved by GetAndStoreOwner (which creates records with the two
timestamps equal) and by UpdateOwner (under clock monotonicity: now is
at or after every stored creation time), while GetNFTByTokenID and
GetAllNFTs never mutate the store. -/
theorem storeInv_preserved
    (env : Env) (ca : String) (t : Nat) (db : Store)
    (hdb : StoreInv db)
    (hclock : ∀ n ∈ db, n.createdAt ≤ env.now) :
    StoreInv (GetAndStoreOwner env ca t db).2.1 ∧
    StoreInv (UpdateOwner env ca t db).2.1 ∧
    (GetNFTByTokenID env t db).2.1 = db ∧
    (GetAllNFTs env db).2.1 = db := by
  refine ⟨?_, ?_, ?_, ?_⟩
  · unfold GetAndStoreOwner
    cases hch : env.chain with
    | error e => simpa using hdb
    | ok owner =>
      cases hff : env.firstFault with
      | some e => simpa using hdb
      | none =>
        cases hfind : dbFirstByTokenID db t with
        | some nft => simpa using hdb
        | none =>
          cases hcf : env.createFault with
          | some e => simpa using hdb
          | none =>
            intro n hn
            simp only [dbCreate, List.mem_append, List.mem_singleton] at hn
            rcases hn with hn | rfl
            · exact hdb n hn
            · exact le_refl _
  · unfold UpdateOwner
    cases hch : env.chain with
    | error e => simpa using hdb
    | ok owner =>
      cases hff : env.firstFault with
      | some e => simpa using hdb
      | none =>
        cases hfind : dbFirstByTokenID db t with
        | none => simpa using hdb
        | some nft =>
          cases hsf : env.saveFault with
          | some e => simpa using hdb
          | none =>
            intro n hn
            simp only [dbSave, List.mem_map] at hn
            obtain ⟨m, hm, rfl⟩ := hn
            by_cases hmt : (m.tokenID ==
                ({ nft with owner := owner, updatedAt := env.now } : NFT).tokenID)
            · simp only [hmt, if_pos]
              exact hclock nft (List.mem_of_find?_eq_some hfind)
            · simp only [hmt, if_neg, Bool.false_eq_true, not_false_eq_true]
              exact hdb m hm
  · unfold GetNFTByTokenID
    cases hff : env.firstFault with
    | some e => rfl
    | none =>
      cases hfind : dbFirstByTokenID db t with
      | none => rfl
      | some nft => rfl
  · unfold GetAllNFTs
    cases hfa : env.findAllFault with
    | some e => rfl
    | none => rfl

/-- Witness for C7 at a concrete input: a one-record store satisfying
the invariant, with the clock at 10. -/
theorem storeInv_preserved_witness :
    StoreInv (GetAndStoreOwner ⟨.ok "0xAAAA", none, none, none, none, 10⟩ "0xC" 1
        [⟨1, "0xBBBB", 2, 3⟩]).2.1 ∧
    StoreInv (UpdateOwner ⟨.ok "0xAAAA", none, none, none, none, 10⟩ "0xC" 1
        [⟨1, "0xBBBB", 2, 3⟩]).2.1 ∧
    (GetNFTByTokenID ⟨.ok "0xAAAA", none, none, none, none, 10⟩ 1
        [⟨1, "0xBBBB", 2, 3⟩]).2.1 = [⟨1, "0xBBBB", 2, 3⟩] ∧
    (GetAllNFTs ⟨.ok "0xAAAA", none, none, none, none, 10⟩
        [⟨1, "0xBBBB", 2, 3⟩]).2.1 = [⟨1, "0xBBBB", 2, 3⟩] :=
  storeInv_preserved _ "0xC" 1 _ (by decide) (by decide)

/-- C8: on a store with no record for the token id, a successful
GetAndStoreOwner stores and returns a new record with owner set to the
fetched chain value and created_at = updated_at = now; a failed insert
propagates the failure with the store unchanged. -/
theorem getAndStoreOwner_creates_fresh
    (env : Env) (ca : String) (t : Nat) (db : Store) (A : String)
    (hchain : env.chain = .ok A)
    (hff : env.firstFault = none)
    (habs : dbFirstByTokenID db t = none) :
    (env.createFault = none →
      GetAndStoreOwner env ca t db =
        (.ok ⟨t, A, env.now, env.now⟩, db ++ [⟨t, A, env.now, env.now⟩],
          [.first t, .create ⟨t, A, env.now, env.now⟩])) ∧
    ∀ e, env.createFault = some e →
      GetAndStoreOwner env ca t db =
        (.error ("failed to save NFT to database: " ++ e), db,
          [.first t, .create ⟨t, A, env.now, env.now⟩]) := by
  constructor
  · intro hcf
    simp only [GetAndStoreOwner, hchain, hff, habs, hcf, dbCreate]
  · intro e hcf
    simp only [GetAndStoreOwner, hchain, hff, habs, hcf]

/-- Witness for C8 at a concrete input: token 7 seeded on an empty store
at time 10, with both timestamps equal to 10. -/
theorem getAndStoreOwner_creates_fresh_witness :
    GetAndStoreOwner ⟨.ok "0xAAAA", none, none, none, none, 10⟩ "0xC" 7 []
      = (.ok ⟨7, "0xAAAA", 10, 10⟩, [⟨7, "0xAAAA", 10, 10⟩],
          [.first 7, .create ⟨7, "0xAAAA", 10, 10⟩]) :=
  (getAndStoreOwner_creates_fresh _ "0xC" 7 [] "0xAAAA" rfl rfl rfl).1 rfl

/-- C9: GetAllNFTs without a storage fault returns every stored record
for any store state, and on the empty store it returns the empty list
and not an error. -/
theorem getAllNFTs_empty_ok
    (env : Env) (db : Store)
    (h : env.findAllFault = none) :
    GetAllNFTs env db = (.ok db, db, [.findAll]) ∧
    GetAllNFTs env [] = (.ok [], [], [.findAll]) := by
  constructor <;> simp only [GetAllNFTs, h]

/-- Witness for C9 at a concrete input: a healthy one-record store. -/
theorem getAllNFTs_empty_ok_witness :
    GetAllNFTs ⟨.ok "0xAAAA", none, none, none, none, 10⟩ [⟨1, "0xBBBB", 2, 3⟩]
      = (.ok [⟨1, "0xBBBB", 2, 3⟩], [⟨1, "0xBBBB", 2, 3⟩], [.findAll]) ∧
    GetAllNFTs ⟨.ok "0xAAAA", none, none, none, none, 10⟩ []
      = (.ok [], [], [.findAll]) :=
  getAllNFTs_empty_ok _ _ rfl

/-- C6: the 404 mapping for RecordNotFound fails on the code. The GET
handler compares the service error against a message rebuilt from the
raw path string, so the path "007" (which parses to token id 7) on a
store without token 7 yields status 500 instead of 404: the service
error says "7" where the handler expects "007". Likewise the PUT handler
rebuilds the message through strconv.Itoa(int(tokenID)), so a token id
of 2^63 (negative after the int conversion) with no stored record also
yields 500 instead of 404. -/
theorem notFound_statusMapping_bug :
    handleGetNFTByTokenID ⟨.ok "0xAAAA", none, none, none, none, 10⟩ "007" [] = 500 ∧
    parseUintBase10Bits32 "007" = some 7 ∧
    (GetNFTByTokenID ⟨.ok "0xAAAA", none, none, none, none, 10⟩ 7 []).1 =
      .error "NFT with token ID 7 not found" ∧
    handleGetNFTByTokenID ⟨.ok "0xAAAA", none, none, none, none, 10⟩ "7" [] = 404 ∧
    (handleUpdateOwner ⟨.ok "0xAAAA", none, none, none, none, 10⟩
        ⟨some "0xC", some (2 ^ 63)⟩ []).1 = 500 ∧
    (UpdateOwner ⟨.ok "0xAAAA", none, none, none, none, 10⟩ "0xC" (2 ^ 63) []).1 =
      .error "NFT with token ID 9223372036854775808 not found in database" :=
  ⟨rfl, rfl, rfl, rfl, rfl, rfl⟩

/-- C10: a POST or PUT owner request whose JSON body omits token_id or
sets it to 0 is rejected with status 400 by the binding layer (the
required tag fails on the uint zero value), with the store unchanged and
no store operation performed: no core operation runs for token id 0. -/
theorem tokenID_zero_rejected
    (env : Env) (b : OwnerRequestBody) (db : Store)
    (h : b.tokenID = some 0 ∨ b.tokenID = none) :
    handleGetAndStoreOwner env b db = (400, db, []) ∧
    handleUpdateOwner env b db = (400, db, []) := by
  have ht : b.tokenID.getD 0 = 0 := by
    rcases h with h | h <;> simp [h]
  have hbind : bindOwnerRequest b = none := by
    simp [bindOwnerRequest, ht]
  constructor
  · simp only [handleGetAndStoreOwner, hbind]
  · simp only [handleUpdateOwner, hbind]

/-- Witness for C10 at a concrete input: a body with token_id 0 against
a one-record store. -/
theorem tokenID_zero_rejected_witness :
    handleGetAndStoreOwner ⟨.ok "0xAAAA", none, none, none, none, 10⟩
        ⟨some "0xC", some 0⟩ [⟨1, "0xBBBB", 2, 3⟩]
      = (400, [⟨1, "0xBBBB", 2, 3⟩], []) ∧
    handleUpdateOwner ⟨.ok "0xAAAA", none, none, none, none, 10⟩
        ⟨some "0xC", some 0⟩ [⟨1, "0xBBBB", 2, 3⟩]
      = (400, [⟨1, "0xBBBB", 2, 3⟩], []) :=
  tokenID_zero_rejected _ _ _ (Or.inl rfl)

end GoCliEth
